import Mathlib

/-!
Verification of `protobuf_to_bq_schema.py` (a Protobuf → BigQuery schema
pipeline) against its natural-language specification.

The pure computations of the script are embedded directly; effectful
boundaries (the `protoc` subprocess, the filesystem, YAML parsing) are
embedded by passing their observable results explicitly as values, with the
script's handling of those results translated faithfully from the source.
-/

namespace ProtobufBQ

/-! ## Python string primitives used by the script

These are structural (kernel-computable) embeddings of the CPython string
methods the script calls. -/

/-- Python `s.rstrip(chars)`: remove all trailing characters of `chars`. -/
def pyRstrip (chars : List Char) (s : String) : String :=
  ⟨(s.data.reverse.dropWhile (fun c => chars.contains c)).reverse⟩

/-- Python `s.strip(chars)`: remove leading and trailing characters of `chars`. -/
def pyStrip (chars : List Char) (s : String) : String :=
  ⟨((s.data.dropWhile (fun c => chars.contains c)).reverse.dropWhile
      (fun c => chars.contains c)).reverse⟩

/-- The whitespace characters stripped by a bare Python `s.strip()`:
space, tab, newline, carriage return, vertical tab, form feed. -/
def pyWhitespace : List Char := [' ', '\t', '\n', '\r', '\x0b', '\x0c']

/-- Python `s.strip()` with no argument. -/
def pyTrim (s : String) : String := pyStrip pyWhitespace s

/-- ASCII case folding of one character. The script's only case-insensitive
comparison is against the ASCII keyword `reserved`. -/
def lowerChar (c : Char) : Char :=
  if 'A' ≤ c ∧ c ≤ 'Z' then Char.ofNat (c.toNat + 32) else c

/-- Python `s.lower()` (ASCII range). -/
def pyLower (s : String) : String := ⟨s.data.map lowerChar⟩

/-- Python `s.startswith(pre)`. -/
def pyStartsWith (pre s : String) : Bool := pre.data.isPrefixOf s.data

/-- Worker for `pySplit`: scan left to right, splitting at every
non-overlapping occurrence of the (nonempty) separator. The fuel only bounds
the recursion; `pySplit` passes enough for the scan to finish. -/
def pySplitAux (sep : List Char) : Nat → List Char → List Char → List (List Char)
  | 0, acc, _ => [acc.reverse]
  | _ + 1, acc, [] => [acc.reverse]
  | fuel + 1, acc, c :: rest =>
    if sep.isPrefixOf (c :: rest) then
      acc.reverse :: pySplitAux sep fuel [] ((c :: rest).drop sep.length)
    else
      pySplitAux sep fuel (c :: acc) rest

/-- Python `s.split(sep)` for a nonempty separator: split on every
non-overlapping occurrence, left to right, keeping empty segments
(`"a..b".split(".") == ["a", "", "b"]`, `"".split(".") == [""]`). -/
def pySplit (sep s : String) : List String :=
  (pySplitAux sep.data (s.data.length + 1) [] s.data).map (fun cs => ⟨cs⟩)

/-! ## Annotation extraction (src lines 25–42)

The script builds
`lines = [line.split("//") for line in defn.split("\n") if not line.lower().startswith("reserved")]`
and then rebuilds each line, turning a trailing comment into a
`type_override` option clause. Note that Python's `line.split("//")` splits
on EVERY occurrence of `//`, and the rebuild uses only `line[0]` and
`line[1]`, discarding any later segments. -/

/-- The `string.Template` at src lines 25–27, applied with `substitute`. -/
def typeOverrideClause (type : String) : String :=
  "[(gen_bq_schema.bigquery).type_override = \"" ++ type ++ "\"]"

/-- The `lines` list comprehension at src lines 28–32: split the schema text
into lines, drop lines whose lowercase form starts with `reserved`, and split
each remaining line on every occurrence of `//`. -/
def lines (topic_schema_definition : String) : List (List String) :=
  ((pySplit "\n" topic_schema_definition).filter
      (fun line => ! pyStartsWith "reserved" (pyLower line))).map
    (fun line => pySplit "//" line)

/-- One element of the `processed_lines` comprehension at src lines 33–41:
with at least two split segments, emit
`line[0].strip().rstrip(";") + " " + clause(line[1].strip()) + ";"`;
otherwise pass `line[0]` through unchanged. -/
def processLine : List String → String
  | line0 :: line1 :: _ =>
      pyRstrip [';'] (pyTrim line0) ++ " " ++ typeOverrideClause (pyTrim line1) ++ ";"
  | [line0] => line0
  | [] => ""

/-- The `processed_lines` comprehension at src lines 33–41. -/
def processed_lines (topic_schema_definition : String) : List String :=
  (lines topic_schema_definition).map processLine

/-- The `"\n".join(processed_lines)` at src line 42: the rewritten schema text. -/
def annotatedSource (topic_schema_definition : String) : String :=
  String.intercalate "\n" (processed_lines topic_schema_definition)

/-- Reading of the annotation step that follows the spec's words instead of
the source: split once on the FIRST `//`, and take the whole trimmed
remainder of the line as the override type. It differs from `processLine`
exactly when the comment itself contains `//`. -/
def processLineFirstSplit (line : String) : String :=
  match pySplit "//" line with
  | [] => ""
  | [line0] => line0
  | line0 :: rest =>
      pyRstrip [';'] (pyTrim line0) ++ " " ++
        typeOverrideClause (pyTrim (String.intercalate "//" rest)) ++ ";"

/-! ## BigQuery columns and the envelope (src lines 68–78) -/

/-- Modelled from the spec: the BigQuery column type the external
protoc-gen-bq-schema compiler (not part of this repository) infers from a
protobuf scalar field type (spec §3, §8: string → STRING, float → FLOAT,
and so on). -/
def protoInferredType : String → String
  | "string" => "STRING"
  | "int32" => "INTEGER"
  | "int64" => "INTEGER"
  | "float" => "FLOAT"
  | "double" => "FLOAT"
  | "bool" => "BOOLEAN"
  | _ => "RECORD"

/-- One entry of the compiled BigQuery schema JSON: `{name, type, mode}`
(nested RECORD fields are not needed by any claim). -/
structure BQColumn where
  name : String
  type : String
  mode : String
deriving DecidableEq, Repr

/-- Modelled from the spec: the external compiler emits one column per
field, named after the field, typed by the `type_override` option when one
is present and by the inferred type otherwise; proto3 optional fields become
NULLABLE (spec §6, §8, glossary). -/
def compiledColumn (name fieldType : String) (override : Option String) :
    BQColumn :=
  ⟨name, override.getD (protoInferredType fieldType), "NULLABLE"⟩

/-- The four metadata columns appended by `bq_schema.extend` at src
lines 69–76, in source order. -/
def envelopeColumns : List BQColumn :=
  [⟨"subscription_name", "STRING", "NULLABLE"⟩,
   ⟨"message_id", "STRING", "NULLABLE"⟩,
   ⟨"publish_time", "TIMESTAMP", "NULLABLE"⟩,
   ⟨"attributes", "JSON", "NULLABLE"⟩]

/-- The `bq_schema.extend([...])` call at src lines 69–76: Python `extend`
appends the given items at the end of the list, in order. -/
def appendEnvelope (bq_schema : List BQColumn) : List BQColumn :=
  bq_schema ++ envelopeColumns

/-! ## Schema rewriting (src lines 44–56) -/

/-- Top-level elements of a parsed protobuf file, as produced by the external
`proto_schema_parser` library (`Package`, `Import`, message definitions). -/
inductive FileElement where
  | package (name : String)
  | imprt (path : String)
  | message (name : String) (body : String)
deriving DecidableEq, Repr

/-- The parse tree returned by `Parser().parse`: its `file_elements` list. -/
structure ProtoFile where
  file_elements : List FileElement
deriving DecidableEq, Repr

/-- The `proto_schema.file_elements.extend([...])` call at src lines 46–52:
append a `Package("pubsub")` and two `Import` declarations, in that order. -/
def extendFileElements (proto_schema : ProtoFile) : ProtoFile :=
  { file_elements := proto_schema.file_elements ++
      [FileElement.package "pubsub",
       FileElement.imprt "bq_table.proto",
       FileElement.imprt "bq_field.proto"] }

/-- Modelled from the spec: `Generator().generate` of the external
`proto_schema_parser` library (not part of this repository) serializes each
top-level file element back to protobuf source, one declaration per element,
in order. -/
def generateElement : FileElement → String
  | .package name => "package " ++ name ++ ";"
  | .imprt path => "import \"" ++ path ++ "\";"
  | .message name body => "message " ++ name ++ " \x7b" ++ body ++ "\x7d"

/-- Modelled from the spec: the serialized protobuf source of a parse tree. -/
def generatorGenerate (proto_schema : ProtoFile) : String :=
  String.intercalate "\n" (proto_schema.file_elements.map generateElement)

/-! ## The external compiler boundary (src lines 59–68)

`subprocess.run` is called WITHOUT `check=True` and its `CompletedProcess`
result is discarded, so the `protoc` exit status never influences control
flow. The only failure points are `open("target/pubsub/pubsub.schema")`
(`FileNotFoundError` when the artifact is missing) and `json.load`
(`JSONDecodeError` when it is malformed). The observable results of the
subprocess and the filesystem are passed in as a `CompilerEnv`. -/

/-- State of the `target/pubsub/pubsub.schema` artifact read at src line 68. -/
inductive ArtifactState where
  | missing
  | malformed
  | parsed (bq_schema : List BQColumn)
deriving DecidableEq, Repr

/-- Python exceptions that the script can raise on the modelled paths. -/
inductive PyError where
  | fileNotFoundError
  | jsonDecodeError
  | valueError
  | attributeError
deriving DecidableEq, Repr

/-- Observable results of the external compiler invocation: the `protoc`
exit status and the state of the output artifact. -/
structure CompilerEnv where
  protocExitCode : Int
  artifact : ArtifactState
deriving DecidableEq, Repr

/-- `generate_bigquery_schema` (src lines 14–78), with the effectful boundary
made explicit: the annotated source is rewritten and handed to `protoc`
(whose observable outcome is `env`); `env.protocExitCode` is deliberately
unused because the source discards the `subprocess.run` result; then the
artifact is loaded and the envelope columns are appended. The source finally
serializes the column list with `json.dumps`; the column list itself is
returned here. -/
def generate_bigquery_schema (env : CompilerEnv) (topic_schema_definition : String) :
    Except PyError (List BQColumn) :=
  let _pubsub_proto := annotatedSource topic_schema_definition
  match env.artifact with
  | .missing => .error .fileNotFoundError
  | .malformed => .error .jsonDecodeError
  | .parsed bq_schema => .ok (appendEnvelope bq_schema)

/-! ## Resource id parsing and template variables (src lines 81–104) -/

/-- The character set of `resource_id.strip(" `\"'")` at src line 91:
space, backtick, double quote, single quote. -/
def resourceStripChars : List Char := [' ', Char.ofNat 96, '"', Char.ofNat 39]

/-- Src lines 90–92: strip wrapping characters, split on `.`, and unpack into
exactly three components. Python tuple unpacking raises `ValueError` (modelled
as `none`) unless the split yields exactly three segments; empty segments are
accepted. -/
def parseResourceId (resource_id : String) : Option (String × String × String) :=
  match pySplit "." (pyStrip resourceStripChars resource_id) with
  | [project_id, dataset_id, table_id] => some (project_id, dataset_id, table_id)
  | _ => none

/-- The dict returned by `generate_template_variables` at src lines 97–104. -/
structure TemplateVariables where
  project_id : String
  dataset_id : String
  table_id : String
  schema : List BQColumn
  partitioning_field : String
  clustering_fields : Option (List String)
deriving DecidableEq, Repr

/-- `generate_template_variables` (src lines 81–104): truncate the clustering
fields to the first four when present (`clustering_fields[:4]`), parse the
resource id (raising `ValueError` on a bad split), generate the schema, and
assemble the bundle. The defaults mirror the Python signature:
`partitioning_field="publish_time"`, `clustering_fields=None`. -/
def generate_template_variables (env : CompilerEnv) (resource_id : String)
    (protobuf_schema : String) (partitioning_field : String := "publish_time")
    (clustering_fields : Option (List String) := none) :
    Except PyError TemplateVariables :=
  let clustering_fields := clustering_fields.map (fun fields => fields.take 4)
  match parseResourceId resource_id with
  | none => .error .valueError
  | some (project_id, dataset_id, table_id) =>
    match generate_bigquery_schema env protobuf_schema with
    | .error e => .error e
    | .ok schema =>
        .ok ⟨project_id, dataset_id, table_id, schema, partitioning_field,
             clustering_fields⟩

/-- The call made by `main` at src lines 191–195: `partitioning_field` is
always passed, taken from the CLI flag whose argparse default (src line 176)
is `"created_at"`. -/
def mainTemplateVars (env : CompilerEnv) (bigquery_table : String)
    (topic_schema_definition : String) (partitioning_field_arg : Option String) :
    Except PyError TemplateVariables :=
  generate_template_variables env bigquery_table topic_schema_definition
    (partitioning_field_arg.getD "created_at")

/-! ## Output writing in main (src lines 197–202)

`main` writes `dataset.yaml` and then `table.yaml`, each via
`with open(path, "w") as f: f.write(render(...))`. Opening in mode `"w"`
creates/truncates the file BEFORE the render expression is evaluated, and no
exception handler or cleanup exists, so a render failure leaves behind every
previously written file plus the just-truncated empty one. The observable
outcomes of the two Jinja renders are passed in as a `RenderEnv`
(`none` models the render raising an exception). -/

structure RenderEnv where
  dataset_render : Option String
  table_render : Option String
deriving DecidableEq, Repr

/-- Files present in the output directory after `main`'s write sequence:
`none` means the file was never created, `some s` that it exists holding `s`. -/
structure OutputFiles where
  dataset_yaml : Option String
  table_yaml : Option String
deriving DecidableEq, Repr

/-- The write sequence of src lines 199–202, paired with whether `main`
completed without an exception. -/
def mainWriteOutputs (env : RenderEnv) : OutputFiles × Bool :=
  match env.dataset_render with
  | none => (⟨some "", none⟩, false)
  | some dataset_content =>
    match env.table_render with
    | none => (⟨some dataset_content, some ""⟩, false)
    | some table_content => (⟨some dataset_content, some table_content⟩, true)

/-! ## YAML search (src lines 138–159) -/

/-- Value of a top-level document key that the script reads through
`doc.get(key, {}).get(subkey)` (`metadata`/`name` and `spec`/`definition`):
- `absent`: the key is missing, so `doc.get(key, {})` yields the default
  `{}` and the subkey lookup yields `None`;
- `notDict`: the key is present but its value is `null` (or any other
  non-dict), so `doc.get(key, {})` returns that stored value and the
  `.get(subkey)` call raises an uncaught `AttributeError`;
- `dict entry`: the value is a dict and `entry` is its relevant sub-entry
  (`none` when that sub-entry is missing or null). -/
inductive YamlSection where
  | absent
  | notDict
  | dict (entry : Option String)
deriving DecidableEq, Repr

/-- One YAML document as seen by the script: either not a dict (the
`isinstance(doc, dict)` guard fails), or a dict with its `kind` value (as
compared against "PubSubSchema") and its `metadata` and `spec` sections. -/
inductive YamlDoc where
  | nonDict
  | dict (kind : Option String) (metadata : YamlSection) (spec : YamlSection)
deriving DecidableEq, Repr

/-- One YAML file in traversal order: the documents that
`yaml.safe_load_all` yields, and whether the (lazy) parse raises a
`YAMLError` afterwards — the `except yaml.YAMLError` handler at src
lines 156–157 only prints and continues. -/
structure YamlFile where
  docs : List YamlDoc
  raisesYamlError : Bool
deriving DecidableEq, Repr

/-- The body of the inner document loop of `search_yaml_files`
(src lines 145–155), including its error behaviour. The `and` at src
lines 146–149 short-circuits: the metadata lookup runs only when
`kind == "PubSubSchema"`, and the spec lookup only for a fully matching
document. On a `notDict` section the `.get` call raises `AttributeError`,
which `except yaml.YAMLError` does NOT catch, so it propagates. Otherwise a
present, truthy definition is appended (Python `if spec_definition:`
rejects both a missing and an empty definition). -/
def searchStep (pubsubschema_name : String) (definitions : List String)
    (doc : YamlDoc) : Except PyError (List String) :=
  match doc with
  | .nonDict => .ok definitions
  | .dict kind metadata spec =>
    if kind = some "PubSubSchema" then
      match metadata with
      | .notDict => .error .attributeError
      | .absent => .ok definitions
      | .dict name =>
        if name = some pubsubschema_name then
          match spec with
          | .notDict => .error .attributeError
          | .absent => .ok definitions
          | .dict definition =>
            match definition with
            | some d => if d ≠ "" then .ok (definitions ++ [d]) else .ok definitions
            | none => .ok definitions
        else .ok definitions
    else .ok definitions

/-- The inner `for doc in documents` loop of src lines 145–155: an
`AttributeError` raised by a step aborts the loop (and the whole function). -/
def docsLoop (pubsubschema_name : String) (definitions : List String) :
    List YamlDoc → Except PyError (List String)
  | [] => .ok definitions
  | doc :: docs =>
    match searchStep pubsubschema_name definitions doc with
    | .error e => .error e
    | .ok defs => docsLoop pubsubschema_name defs docs

/-- The outer file loop of src lines 140–157: a file's lazily raised
`yaml.YAMLError` (after its yielded documents were processed) is caught,
only printed, and changes nothing — so `raisesYamlError` is never
consulted — while an `AttributeError` propagates out of the function. -/
def filesLoop (pubsubschema_name : String) (definitions : List String) :
    List YamlFile → Except PyError (List String)
  | [] => .ok definitions
  | file :: files =>
    match docsLoop pubsubschema_name definitions file.docs with
    | .error e => .error e
    | .ok defs => filesLoop pubsubschema_name defs files

/-- `search_yaml_files` (src lines 138–159): scan all files in traversal
order starting from an empty accumulator; `.error` models the function
terminating with an uncaught exception instead of returning. -/
def search_yaml_files (files : List YamlFile) (pubsubschema_name : String) :
    Except PyError (List String) :=
  filesLoop pubsubschema_name [] files

/-- Declarative reading of the per-document rule, following the claim's
words plus the error path the source forces: a matching document (kind
`PubSubSchema`, requested name) yields its spec definition; a matching
document lacking one (spec section or definition absent, or definition
empty) is skipped; a non-matching or non-dict document yields nothing; a
kind-matching document with a null/non-dict metadata value, or a fully
matching document with a null/non-dict spec value, raises `AttributeError`. -/
def docOutcome (pubsubschema_name : String) : YamlDoc → Except PyError (Option String)
  | .nonDict => .ok none
  | .dict kind metadata spec =>
    if kind = some "PubSubSchema" then
      match metadata with
      | .notDict => .error .attributeError
      | .absent => .ok none
      | .dict name =>
        if name = some pubsubschema_name then
          match spec with
          | .notDict => .error .attributeError
          | .absent => .ok none
          | .dict definition =>
            match definition with
            | some d => if d ≠ "" then .ok (some d) else .ok none
            | none => .ok none
        else .ok none
    else .ok none

/-- The definition a document contributes when it does not raise. -/
def docDefinition (pubsubschema_name : String) (doc : YamlDoc) : Option String :=
  match docOutcome pubsubschema_name doc with
  | .ok o => o
  | .error _ => none

/-- Whether scanning a document raises an uncaught `AttributeError`. -/
def docRaises (pubsubschema_name : String) (doc : YamlDoc) : Bool :=
  match docOutcome pubsubschema_name doc with
  | .error _ => true
  | .ok _ => false

/-- Declarative reading of the whole search on raise-free input, following
the claim's words: every matched definition of every document of every
file, in traversal order, unaffected by parse errors. -/
def matchingDefinitions (files : List YamlFile) (pubsubschema_name : String) :
    List String :=
  (files.map (fun file => file.docs.filterMap (docDefinition pubsubschema_name))).flatten

/-- The `[0]` indexing at src lines 188–190: `main` uses only the first
returned definition (when the scan returns at all). -/
def mainLookup (files : List YamlFile) (pubsubschema_name : String) :
    Except PyError (Option String) :=
  (search_yaml_files files pubsubschema_name).map List.head?

/-! ## Theorems -/

/-- C2 (confirmed): the envelope augmenter appends exactly four columns —
subscription_name (STRING), message_id (STRING), publish_time (TIMESTAMP),
attributes (JSON), all NULLABLE — unconditionally and in that fixed order,
leaves the pre-existing columns and their order unchanged, and performs no
deduplication against same-named pre-existing columns. -/
theorem c2_envelope_augmenter (bq_schema : List BQColumn) :
    (appendEnvelope bq_schema).take bq_schema.length = bq_schema
    ∧ (appendEnvelope bq_schema).drop bq_schema.length =
        [⟨"subscription_name", "STRING", "NULLABLE"⟩,
         ⟨"message_id", "STRING", "NULLABLE"⟩,
         ⟨"publish_time", "TIMESTAMP", "NULLABLE"⟩,
         ⟨"attributes", "JSON", "NULLABLE"⟩]
    ∧ (appendEnvelope bq_schema).length = bq_schema.length + 4
    ∧ (∀ n : String,
        ((appendEnvelope bq_schema).filter (fun c => c.name == n)).length =
          (bq_schema.filter (fun c => c.name == n)).length +
            (envelopeColumns.filter (fun c => c.name == n)).length) := by
  refine ⟨?_, ?_, ?_, fun n => ?_⟩ <;>
    simp [appendEnvelope, envelopeColumns, List.take_left, List.drop_left,
      List.filter_append]

/-- C4 (confirmed): every schema line whose lowercase form begins with
`reserved` is dropped before annotation extraction: it never survives the
filter, and every segment list the extraction examines comes from a
non-reserved line. -/
theorem c4_reserved_lines_dropped (topic_schema_definition : String) :
    (∀ line ∈ pySplit "\n" topic_schema_definition,
        pyStartsWith "reserved" (pyLower line) = true →
        line ∉ (pySplit "\n" topic_schema_definition).filter
          (fun l => ! pyStartsWith "reserved" (pyLower l)))
    ∧ (∀ segs ∈ lines topic_schema_definition,
        ∃ line, pySplit "//" line = segs
          ∧ pyStartsWith "reserved" (pyLower line) = false) := by
  constructor
  · intro line _ hres hmem
    have h := List.mem_filter.mp hmem
    simp [hres] at h
  · intro segs hsegs
    unfold lines at hsegs
    rcases List.mem_map.mp hsegs with ⟨line, hline, rfl⟩
    have h := List.mem_filter.mp hline
    exact ⟨line, rfl, by simpa using h.2⟩

/-- C4 witness: the line `Reserved 2;` of a concrete schema source is not
among the lines kept for annotation extraction. -/
theorem c4_reserved_lines_dropped_witness :
    "Reserved 2;" ∉ (pySplit "\n" "Reserved 2;\noptional int32 a = 1;").filter
      (fun l => ! pyStartsWith "reserved" (pyLower l)) :=
  (c4_reserved_lines_dropped "Reserved 2;\noptional int32 a = 1;").1
    "Reserved 2;" (by decide) (by decide)

/-- C8 (confirmed): the schema rewriter appends exactly three top-level
declarations — a package declaration fixed to "pubsub" and import
declarations for bq_table.proto and bq_field.proto — in that order, leaving
the prior elements unchanged, and the (spec-modelled) generator serializes
the augmented tree with exactly those three declarations appended. -/
theorem c8_rewriter_appends_declarations (proto_schema : ProtoFile) :
    (extendFileElements proto_schema).file_elements =
      proto_schema.file_elements ++
        [FileElement.package "pubsub", FileElement.imprt "bq_table.proto",
         FileElement.imprt "bq_field.proto"]
    ∧ (extendFileElements proto_schema).file_elements.length =
        proto_schema.file_elements.length + 3
    ∧ (extendFileElements proto_schema).file_elements.map generateElement =
        proto_schema.file_elements.map generateElement ++
          ["package pubsub;", "import \"bq_table.proto\";",
           "import \"bq_field.proto\";"] := by
  refine ⟨rfl, ?_, ?_⟩ <;> simp [extendFileElements, generateElement]

/-- C6 (counterexample): with the compiler exiting with nonzero status 1
while a stale parsed artifact is still present, `generate_bigquery_schema`
reports a successful compilation — the exit status is ignored because
`subprocess.run` is called without `check=True` — contradicting the claim
that a nonzero exit always fails with a CompilationError and that success is
never reported in that case. -/
theorem c6_counterexample :
    generate_bigquery_schema
        ⟨1, ArtifactState.parsed [⟨"stale", "STRING", "NULLABLE"⟩]⟩
        "message M" =
      Except.ok [⟨"stale", "STRING", "NULLABLE"⟩,
        ⟨"subscription_name", "STRING", "NULLABLE"⟩,
        ⟨"message_id", "STRING", "NULLABLE"⟩,
        ⟨"publish_time", "TIMESTAMP", "NULLABLE"⟩,
        ⟨"attributes", "JSON", "NULLABLE"⟩]
    ∧ (1 : Int) ≠ 0 :=
  ⟨rfl, by decide⟩

/-- C6 (amended): the compiler's exit status never influences the result;
the stage fails exactly when the output artifact is missing
(FileNotFoundError) or malformed (JSONDecodeError) — there is no
CompilationError class — and any parsed artifact yields success with the
envelope appended, with no retry in any case. -/
theorem c6_exit_status_ignored (exit1 exit2 : Int) (artifact : ArtifactState)
    (topic_schema_definition : String) :
    generate_bigquery_schema ⟨exit1, artifact⟩ topic_schema_definition =
      generate_bigquery_schema ⟨exit2, artifact⟩ topic_schema_definition
    ∧ generate_bigquery_schema ⟨exit1, ArtifactState.missing⟩
        topic_schema_definition = Except.error PyError.fileNotFoundError
    ∧ generate_bigquery_schema ⟨exit1, ArtifactState.malformed⟩
        topic_schema_definition = Except.error PyError.jsonDecodeError
    ∧ ∀ bq_schema, generate_bigquery_schema
        ⟨exit1, ArtifactState.parsed bq_schema⟩ topic_schema_definition =
        Except.ok (appendEnvelope bq_schema) := by
  refine ⟨?_, rfl, rfl, fun _ => rfl⟩
  cases artifact <;> rfl

/-- C7 (counterexample): when the dataset definition renders successfully but
the table-definition render raises, the run fails, yet `dataset.yaml` has
already been fully written (and `table.yaml` was created empty) —
contradicting the claim that a failing run writes no output artifact. -/
theorem c7_counterexample :
    (mainWriteOutputs ⟨some "dataset content", none⟩).2 = false
    ∧ (mainWriteOutputs ⟨some "dataset content", none⟩).1.dataset_yaml =
        some "dataset content"
    ∧ (mainWriteOutputs ⟨some "dataset content", none⟩).1.table_yaml =
        some "" :=
  ⟨rfl, rfl, rfl⟩

/-- C7 (amended): `main` writes `dataset.yaml` before `table.yaml` with no
cleanup on failure. Both artifacts are fully written exactly when both
renders succeed; a table-render failure leaves the complete `dataset.yaml`
(plus an empty `table.yaml`) on disk; a dataset-render failure leaves an
empty `dataset.yaml`; so a failing run can leave partial output. -/
theorem c7_write_sequence (env : RenderEnv) :
    ((mainWriteOutputs env).2 = true ↔
      (∃ d, env.dataset_render = some d) ∧ (∃ t, env.table_render = some t))
    ∧ ((mainWriteOutputs env).2 = true →
        (mainWriteOutputs env).1.dataset_yaml = env.dataset_render
        ∧ (mainWriteOutputs env).1.table_yaml = env.table_render)
    ∧ (∀ d, env.dataset_render = some d → env.table_render = none →
        (mainWriteOutputs env).2 = false
        ∧ (mainWriteOutputs env).1.dataset_yaml = some d
        ∧ (mainWriteOutputs env).1.table_yaml = some "")
    ∧ (env.dataset_render = none →
        (mainWriteOutputs env).2 = false
        ∧ (mainWriteOutputs env).1.dataset_yaml = some ""
        ∧ (mainWriteOutputs env).1.table_yaml = none) := by
  obtain ⟨d, t⟩ := env
  cases d <;> cases t <;> simp [mainWriteOutputs]

/-- C7 witness: the amended statement applied to a run whose table render
fails after the dataset render succeeded. -/
theorem c7_write_sequence_witness :
    (mainWriteOutputs ⟨some "D", none⟩).2 = false
    ∧ (mainWriteOutputs ⟨some "D", none⟩).1.dataset_yaml = some "D"
    ∧ (mainWriteOutputs ⟨some "D", none⟩).1.table_yaml = some "" :=
  (c7_write_sequence ⟨some "D", none⟩).2.2.1 "D" rfl rfl

/-- C1 (counterexample): on a line whose trailing comment itself contains
`//`, the pipeline does NOT split on the first `//` and take the whole
trimmed comment as the override type. `line.split("//")` splits on every
occurrence and the rebuild uses only segment 1, so the override becomes `a`
and the text after the second `//` is discarded, while the claim's
split-on-first reading would produce the override `a//b`. -/
theorem c1_counterexample :
    annotatedSource "optional string x = 1; // a//b" =
      "optional string x = 1 [(gen_bq_schema.bigquery).type_override = \"a\"];"
    ∧ processLineFirstSplit "optional string x = 1; // a//b" =
      "optional string x = 1 [(gen_bq_schema.bigquery).type_override = \"a//b\"];"
    ∧ annotatedSource "optional string x = 1; // a//b" ≠
      processLineFirstSplit "optional string x = 1; // a//b" :=
  ⟨by decide, by decide, by decide⟩

/-- C1 (amended): each kept line is split on EVERY `//`; when a second
segment exists, the emitted line is the first segment trimmed with trailing
`;` removed, followed by the type_override option clause built from the
trimmed second segment and a terminating `;` (later segments are
discarded). The line `optional string created_at = 5; // TIMESTAMP` is
rewritten to a declaration carrying `type_override = "TIMESTAMP"`, and
(spec-modelled compiler) such a field compiles to a TIMESTAMP column named
`created_at` rather than the inferred STRING. -/
theorem c1_annotation_extraction (topic_schema_definition : String) :
    (∀ (i : Nat) (line0 line1 : String) (rest : List String),
        (lines topic_schema_definition)[i]? = some (line0 :: line1 :: rest) →
        (processed_lines topic_schema_definition)[i]? =
          some (pyRstrip [';'] (pyTrim line0) ++ " " ++
            typeOverrideClause (pyTrim line1) ++ ";"))
    ∧ annotatedSource "optional string created_at = 5; // TIMESTAMP" =
        "optional string created_at = 5 [(gen_bq_schema.bigquery).type_override = \"TIMESTAMP\"];"
    ∧ compiledColumn "created_at" "string" (some "TIMESTAMP") =
        ⟨"created_at", "TIMESTAMP", "NULLABLE"⟩
    ∧ compiledColumn "created_at" "string" none =
        ⟨"created_at", "STRING", "NULLABLE"⟩ := by
  refine ⟨?_, by decide, rfl, rfl⟩
  intro i line0 line1 rest h
  unfold processed_lines
  rw [List.getElem?_map, h]
  rfl

/-- C1 witness: the amended statement applied to a concrete annotated line. -/
theorem c1_annotation_extraction_witness :
    (processed_lines "optional string a = 1; // DATE")[0]? =
      some (pyRstrip [';'] (pyTrim "optional string a = 1; ") ++ " " ++
        typeOverrideClause (pyTrim " DATE") ++ ";") :=
  (c1_annotation_extraction "optional string a = 1; // DATE").1 0
    "optional string a = 1; " " DATE" [] (by decide)

/-- C3 (counterexample): the parser accepts `a..b`, whose split has an empty
middle segment, assigning an empty dataset id — the claim requires failure
unless all three segments are non-empty. -/
theorem c3_counterexample :
    parseResourceId "a..b" = some ("a", "", "b") := by decide

/-- C3 (amended): the parser strips leading/trailing space, backtick,
double-quote and single-quote characters, splits on `.`, and fails (a
`ValueError` from tuple unpacking — no `InvalidResourceIdError` exists)
unless the split yields exactly three segments, which may be empty and are
assigned in order to project, dataset, table; a quoted/backticked wrapped
string parses to the same triple as the bare string. -/
theorem c3_resource_id_parsing :
    (∀ resource_id project_id dataset_id table_id : String,
        pySplit "." (pyStrip resourceStripChars resource_id) =
          [project_id, dataset_id, table_id] →
        parseResourceId resource_id = some (project_id, dataset_id, table_id))
    ∧ (∀ resource_id : String,
        (pySplit "." (pyStrip resourceStripChars resource_id)).length ≠ 3 →
        parseResourceId resource_id = none)
    ∧ parseResourceId " `\"project.dataset.table\"` " =
        some ("project", "dataset", "table")
    ∧ parseResourceId "project.dataset.table" =
        some ("project", "dataset", "table")
    ∧ parseResourceId "project.dataset" = none
    ∧ parseResourceId "a.b.c.d" = none := by
  refine ⟨?_, ?_, by decide, by decide, by decide, by decide⟩
  · intro resource_id project_id dataset_id table_id h
    unfold parseResourceId
    rw [h]
  · intro resource_id h
    unfold parseResourceId
    rcases hs : pySplit "." (pyStrip resourceStripChars resource_id) with
      _ | ⟨a, _ | ⟨b, _ | ⟨c, _ | ⟨e, tl⟩⟩⟩⟩ <;> simp_all

/-- C3 witness: the amended statement applied to concrete resource ids. -/
theorem c3_resource_id_parsing_witness :
    parseResourceId "x.y.z" = some ("x", "y", "z")
    ∧ parseResourceId "nodots" = none :=
  ⟨c3_resource_id_parsing.1 "x.y.z" "x" "y" "z" (by decide),
   c3_resource_id_parsing.2.1 "nodots" (by decide)⟩

/-- Helper: `generate_template_variables` copies its `partitioning_field`
and truncated `clustering_fields` arguments into any successful bundle. -/
theorem template_vars_passthrough (env : CompilerEnv)
    (resource_id protobuf_schema partitioning_field : String)
    (clustering_fields : Option (List String)) (v : TemplateVariables)
    (h : generate_template_variables env resource_id protobuf_schema
        partitioning_field clustering_fields = Except.ok v) :
    v.partitioning_field = partitioning_field
    ∧ v.clustering_fields = clustering_fields.map (fun fields => fields.take 4) := by
  unfold generate_template_variables at h
  rcases hp : parseResourceId resource_id with _ | ⟨p, d, t⟩ <;> rw [hp] at h
  · simp at h
  · rcases hg : generate_bigquery_schema env protobuf_schema with e | s <;>
      rw [hg] at h
    · simp at h
    · cases h
      exact ⟨rfl, rfl⟩

/-- C5 (confirmed): a clustering list longer than four entries is silently
truncated to its first four in order; a list of at most four entries passes
through unchanged; an absent (`None`) list leaves the bundle's
clustering_fields unset; and the clustering list never affects whether the
call succeeds. -/
theorem c5_clustering_fields (env : CompilerEnv)
    (resource_id protobuf_schema partitioning_field : String) :
    (∀ (fields : List String) (v : TemplateVariables),
        generate_template_variables env resource_id protobuf_schema
          partitioning_field (some fields) = Except.ok v →
        v.clustering_fields = some (fields.take 4)
        ∧ (fields.take 4).length ≤ 4
        ∧ (fields.length ≤ 4 → v.clustering_fields = some fields))
    ∧ (∀ v : TemplateVariables,
        generate_template_variables env resource_id protobuf_schema
          partitioning_field none = Except.ok v →
        v.clustering_fields = none)
    ∧ (∀ fields : List String,
        (∃ v, generate_template_variables env resource_id protobuf_schema
            partitioning_field (some fields) = Except.ok v) ↔
        (∃ v, generate_template_variables env resource_id protobuf_schema
            partitioning_field none = Except.ok v)) := by
  refine ⟨fun fields v h => ?_, fun v h => ?_, fun fields => ?_⟩
  · obtain ⟨-, hcf⟩ := template_vars_passthrough env resource_id
      protobuf_schema partitioning_field (some fields) v h
    refine ⟨hcf, ?_, fun hle => ?_⟩
    · rw [List.length_take]
      exact Nat.min_le_left 4 fields.length
    · rw [hcf]
      simp [List.take_of_length_le hle]
  · obtain ⟨-, hcf⟩ := template_vars_passthrough env resource_id
      protobuf_schema partitioning_field none v h
    exact hcf
  · unfold generate_template_variables
    rcases hp : parseResourceId resource_id with _ | ⟨p, d, t⟩ <;> simp [hp]
    rcases hg : generate_bigquery_schema env protobuf_schema with e | s <;>
      simp [hg]

/-- C5 witness: a five-entry clustering list is truncated to its first four
in a concrete successful call. -/
theorem c5_clustering_fields_witness :
    (⟨"a", "b", "c", envelopeColumns, "pf",
        some ["f1", "f2", "f3", "f4"]⟩ : TemplateVariables).clustering_fields =
      some (["f1", "f2", "f3", "f4", "f5"].take 4) :=
  ((c5_clustering_fields ⟨0, ArtifactState.parsed []⟩ "a.b.c" "" "pf").1
    ["f1", "f2", "f3", "f4", "f5"]
    ⟨"a", "b", "c", envelopeColumns, "pf", some ["f1", "f2", "f3", "f4"]⟩
    rfl).1

/-- C9 (confirmed): called without an explicit partitioning_field,
`generate_template_variables` defaults it to "publish_time"; but `main`
always passes the CLI flag, whose argparse default is "created_at", so the
function-level default is observable only to direct callers. -/
theorem c9_partitioning_field_defaults (env : CompilerEnv)
    (resource_id protobuf_schema : String) :
    (∀ v : TemplateVariables,
        generate_template_variables env resource_id protobuf_schema =
          Except.ok v →
        v.partitioning_field = "publish_time")
    ∧ (∀ v : TemplateVariables,
        mainTemplateVars env resource_id protobuf_schema none = Except.ok v →
        v.partitioning_field = "created_at")
    ∧ (∀ (flag : String) (v : TemplateVariables),
        mainTemplateVars env resource_id protobuf_schema (some flag) =
          Except.ok v →
        v.partitioning_field = flag) := by
  refine ⟨fun v h => ?_, fun v h => ?_, fun flag v h => ?_⟩
  · exact (template_vars_passthrough env resource_id protobuf_schema
      "publish_time" none v h).1
  · exact (template_vars_passthrough env resource_id protobuf_schema
      "created_at" none v h).1
  · exact (template_vars_passthrough env resource_id protobuf_schema
      flag none v h).1

/-- C9 witness: the defaults observed on concrete successful calls. -/
theorem c9_partitioning_field_defaults_witness :
    (⟨"a", "b", "c", envelopeColumns, "publish_time", none⟩ :
        TemplateVariables).partitioning_field = "publish_time"
    ∧ (⟨"a", "b", "c", envelopeColumns, "created_at", none⟩ :
        TemplateVariables).partitioning_field = "created_at"
    ∧ (⟨"a", "b", "c", envelopeColumns, "custom", none⟩ :
        TemplateVariables).partitioning_field = "custom" :=
  ⟨(c9_partitioning_field_defaults ⟨0, ArtifactState.parsed []⟩ "a.b.c" "").1
      ⟨"a", "b", "c", envelopeColumns, "publish_time", none⟩ rfl,
   (c9_partitioning_field_defaults ⟨0, ArtifactState.parsed []⟩ "a.b.c" "").2.1
      ⟨"a", "b", "c", envelopeColumns, "created_at", none⟩ rfl,
   (c9_partitioning_field_defaults ⟨0, ArtifactState.parsed []⟩ "a.b.c" "").2.2
      "custom" ⟨"a", "b", "c", envelopeColumns, "custom", none⟩ rfl⟩

/-- Helper: one inner step of the document loop either raises exactly when
the declarative per-document outcome raises, or appends exactly its
contributed definition. -/
theorem searchStep_eq (pubsubschema_name : String) (definitions : List String)
    (doc : YamlDoc) :
    searchStep pubsubschema_name definitions doc =
      (docOutcome pubsubschema_name doc).map
        (fun o => definitions ++ o.toList) := by
  cases doc with
  | nonDict => simp [searchStep, docOutcome, Except.map]
  | dict kind metadata spec =>
    by_cases hk : kind = some "PubSubSchema"
    · cases metadata with
      | notDict => simp [searchStep, docOutcome, hk, Except.map]
      | absent => simp [searchStep, docOutcome, hk, Except.map]
      | dict name =>
        by_cases hn : name = some pubsubschema_name
        · cases spec with
          | notDict => simp [searchStep, docOutcome, hk, hn, Except.map]
          | absent => simp [searchStep, docOutcome, hk, hn, Except.map]
          | dict definition =>
            cases definition with
            | none => simp [searchStep, docOutcome, hk, hn, Except.map]
            | some d => by_cases hd : d = "" <;>
                simp [searchStep, docOutcome, hk, hn, hd, Except.map]
        · simp [searchStep, docOutcome, hk, hn, Except.map]
    · simp [searchStep, docOutcome, hk, Except.map]

/-- Helper: on raise-free documents the inner loop appends the filterMapped
definitions of the file's documents. -/
theorem docsLoop_ok (pubsubschema_name : String) (ds : List YamlDoc)
    (h : ∀ doc ∈ ds, docRaises pubsubschema_name doc = false)
    (acc : List String) :
    docsLoop pubsubschema_name acc ds =
      Except.ok (acc ++ ds.filterMap (docDefinition pubsubschema_name)) := by
  induction ds generalizing acc with
  | nil => simp [docsLoop]
  | cons doc ds ih =>
    have hdoc : docRaises pubsubschema_name doc = false := h doc (by simp)
    rcases ho : docOutcome pubsubschema_name doc with e | o
    · simp [docRaises, ho] at hdoc
    · simp only [docsLoop, searchStep_eq, ho, Except.map]
      rw [ih (fun d hd => h d (by simp [hd]))]
      cases o <;> simp [docDefinition, ho, List.filterMap_cons]

/-- Helper: on raise-free files the outer loop appends the flattened
per-file results. -/
theorem filesLoop_ok (pubsubschema_name : String) (files : List YamlFile)
    (h : ∀ file ∈ files, ∀ doc ∈ file.docs,
      docRaises pubsubschema_name doc = false)
    (acc : List String) :
    filesLoop pubsubschema_name acc files =
      Except.ok (acc ++ (files.map
        (fun file => file.docs.filterMap
          (docDefinition pubsubschema_name))).flatten) := by
  induction files generalizing acc with
  | nil => simp [filesLoop]
  | cons f fs ih =>
    simp only [filesLoop,
      docsLoop_ok pubsubschema_name f.docs (h f (by simp)) acc,
      ih (fun g hg d hd => h g (by simp [hg]) d hd)]
    simp

/-- Helper: the `raisesYamlError` flag of a file never influences the scan
(the exception is caught and only printed). -/
theorem filesLoop_flag (pubsubschema_name : String) (pre : List YamlFile)
    (ds : List YamlDoc) (b₁ b₂ : Bool) (post : List YamlFile)
    (acc : List String) :
    filesLoop pubsubschema_name acc (pre ++ [⟨ds, b₁⟩] ++ post) =
      filesLoop pubsubschema_name acc (pre ++ [⟨ds, b₂⟩] ++ post) := by
  induction pre generalizing acc with
  | nil => simp [filesLoop]
  | cons f fs ih =>
    simp only [List.cons_append, filesLoop]
    cases docsLoop pubsubschema_name acc f.docs with
    | error e => rfl
    | ok defs => exact ih defs

/-- Helper: a file that yields no documents before its parse error
contributes nothing to the scan. -/
theorem filesLoop_skip_empty (pubsubschema_name : String)
    (pre : List YamlFile) (b : Bool) (post : List YamlFile)
    (acc : List String) :
    filesLoop pubsubschema_name acc (pre ++ [⟨[], b⟩] ++ post) =
      filesLoop pubsubschema_name acc (pre ++ post) := by
  induction pre generalizing acc with
  | nil => simp [filesLoop, docsLoop]
  | cons f fs ih =>
    simp only [List.cons_append, filesLoop]
    cases docsLoop pubsubschema_name acc f.docs with
    | error e => rfl
    | ok defs => exact ih defs

/-- C10 (counterexample): a document whose kind and metadata name both
match but whose `spec` key holds null is NOT skipped without error — the
`.get("definition")` call raises an uncaught `AttributeError` and the whole
scan aborts instead of returning; likewise a PubSubSchema document whose
`metadata` key holds null aborts the scan during the name comparison. -/
theorem c10_counterexample :
    search_yaml_files
        [⟨[YamlDoc.dict (some "PubSubSchema") (YamlSection.dict (some "X"))
            YamlSection.notDict], false⟩] "X" =
      Except.error PyError.attributeError
    ∧ search_yaml_files
        [⟨[YamlDoc.dict (some "PubSubSchema") YamlSection.notDict
            YamlSection.absent], false⟩] "X" =
      Except.error PyError.attributeError :=
  ⟨rfl, rfl⟩

/-- C10 (amended): a file's `yaml.YAMLError` is caught — it never changes
the collected definitions and scanning continues — and, provided no scanned
document carries a null/non-dict value under an accessed `metadata` or
`spec` key, the lookup returns, in traversal order, every truthy spec
definition of every dict document whose kind is PubSubSchema and whose
metadata name equals the requested name; matching documents whose spec
section or definition is absent, or whose definition is empty, are skipped
without error. A kind-matching document with a null/non-dict metadata
value, or a fully matching document with a null/non-dict spec value,
raises an uncaught AttributeError that aborts the entire scan; `main` uses
only the first returned definition. -/
theorem c10_search_yaml_files (files : List YamlFile)
    (pubsubschema_name : String) :
    ((∀ file ∈ files, ∀ doc ∈ file.docs,
        docRaises pubsubschema_name doc = false) →
      search_yaml_files files pubsubschema_name =
        Except.ok (matchingDefinitions files pubsubschema_name))
    ∧ (∀ (pre post : List YamlFile) (docs : List YamlDoc),
        search_yaml_files (pre ++ [⟨docs, true⟩] ++ post) pubsubschema_name =
          search_yaml_files (pre ++ [⟨docs, false⟩] ++ post) pubsubschema_name)
    ∧ (∀ (pre post : List YamlFile) (b : Bool),
        search_yaml_files (pre ++ [⟨[], b⟩] ++ post) pubsubschema_name =
          search_yaml_files (pre ++ post) pubsubschema_name)
    ∧ docOutcome pubsubschema_name
        (YamlDoc.dict (some "PubSubSchema")
          (YamlSection.dict (some pubsubschema_name)) YamlSection.absent) =
        Except.ok none
    ∧ docOutcome pubsubschema_name
        (YamlDoc.dict (some "PubSubSchema")
          (YamlSection.dict (some pubsubschema_name)) (YamlSection.dict none)) =
        Except.ok none
    ∧ docOutcome pubsubschema_name
        (YamlDoc.dict (some "PubSubSchema")
          (YamlSection.dict (some pubsubschema_name))
          (YamlSection.dict (some ""))) =
        Except.ok none
    ∧ (∀ (doc : YamlDoc) (ds : List YamlDoc) (b : Bool)
          (post : List YamlFile) (e : PyError),
        docOutcome pubsubschema_name doc = Except.error e →
        search_yaml_files (⟨doc :: ds, b⟩ :: post) pubsubschema_name =
          Except.error e)
    ∧ mainLookup files pubsubschema_name =
        (search_yaml_files files pubsubschema_name).map List.head? := by
  refine ⟨fun h => ?_, fun pre post docs => ?_, fun pre post b => ?_,
    ?_, ?_, ?_, fun doc ds b post e he => ?_, rfl⟩
  · simpa [search_yaml_files, matchingDefinitions] using
      filesLoop_ok pubsubschema_name files h []
  · exact filesLoop_flag pubsubschema_name pre docs true false post []
  · exact filesLoop_skip_empty pubsubschema_name pre b post []
  · simp [docOutcome]
  · simp [docOutcome]
  · simp [docOutcome]
  · simp [search_yaml_files, filesLoop, docsLoop, searchStep_eq, he,
      Except.map]

/-- C10 witness: the amended statement applied at concrete inputs — a
raise-free scan (including a file that errors after yielding no documents)
returning its matching definitions, and a scan aborted by a matching
document whose spec value is null. -/
theorem c10_search_yaml_files_witness :
    search_yaml_files
        [⟨[YamlDoc.dict (some "PubSubSchema") (YamlSection.dict (some "X"))
            (YamlSection.dict (some "defn1"))], true⟩, ⟨[], true⟩] "X" =
      Except.ok (matchingDefinitions
        [⟨[YamlDoc.dict (some "PubSubSchema") (YamlSection.dict (some "X"))
            (YamlSection.dict (some "defn1"))], true⟩, ⟨[], true⟩] "X")
    ∧ search_yaml_files
        [⟨[YamlDoc.dict (some "PubSubSchema") (YamlSection.dict (some "Y"))
            YamlSection.notDict], true⟩] "Y" =
      Except.error PyError.attributeError :=
  ⟨(c10_search_yaml_files
      [⟨[YamlDoc.dict (some "PubSubSchema") (YamlSection.dict (some "X"))
          (YamlSection.dict (some "defn1"))], true⟩, ⟨[], true⟩] "X").1
      (by decide),
   (c10_search_yaml_files [] "Y").2.2.2.2.2.2.1
      (YamlDoc.dict (some "PubSubSchema") (YamlSection.dict (some "Y"))
        YamlSection.notDict) [] true [] PyError.attributeError rfl⟩

end ProtobufBQ
